import Mathlib

/-!
Shallow embedding of the classification-and-routing core of the DocBoxRX
email-triage backend:

* `JonE5Classifier` (app/main.py): rule/LLM zone classifier;
* `VectorizerService.vectorize_email` (app/services/vectorizer.py);
* `RoutingEngine.route_vector` (app/services/router.py);
* `StateMachine.transition` (app/services/state_machine.py);
* the persistence behaviour around the `nylas_message_id` uniqueness
  constraint (`process_shadow_traffic` in app/main.py and
  `vectorize_message` in app/routers/vectorizer.py).

Python strings are Lean `String`s, floats are `ℚ`, timestamps are `ℚ`
(hours), dicts keyed by known keys are structures, and the LLM call is an
explicit parameter: `none`/`Except.error` models an unconfigured backend,
a raised exception or unparseable JSON, and a record of `Option` fields
models the parsed JSON object (`none` for an absent or null key), exactly
as the Python reads it with `.get`.
-/

deriving instance DecidableEq for Except

namespace DocboxRx

/-- The `ZoneType` literal type of app/main.py line 176:
`Literal["STAT", "TODAY", "THIS_WEEK", "LATER"]`. -/
inductive Zone where
  | STAT
  | TODAY
  | THIS_WEEK
  | LATER
deriving DecidableEq, Repr

/-- Python `keyword in text` substring test on strings (as lists of
characters). -/
def strContains (text pat : String) : Bool :=
  text.data.tails.any (fun t => pat.data.isPrefixOf t)

/-- Python `str.lower()`: character-wise lowercasing (all strings the
classifier handles are compared on the ASCII range). -/
def lower (s : String) : String :=
  ⟨s.data.map Char.toLower⟩

namespace JonE5Classifier

/-- app/main.py line 370. -/
def STAT_KEYWORDS : List String :=
  ["critical", "urgent", "stat", "emergency", "abnormal", "positive",
   "elevated", "low", "high", "alert", "immediate", "asap"]

/-- app/main.py line 371. -/
def STAT_DOMAINS : List String :=
  ["labcorp", "quest", "hospital", "er", "emergency", "lab", "pathology",
   "radiology"]

/-- app/main.py line 372. -/
def TODAY_KEYWORDS : List String :=
  ["refill", "prescription", "prior auth", "authorization", "referral",
   "appointment", "callback", "pharmacy", "medication"]

/-- app/main.py line 373. -/
def TODAY_DOMAINS : List String :=
  ["pharmacy", "cvs", "walgreens", "insurance", "medicaid", "medicare",
   "aetna", "cigna", "united", "bcbs"]

/-- app/main.py line 374. -/
def THIS_WEEK_KEYWORDS : List String :=
  ["billing", "invoice", "payment", "claim", "denial", "records request",
   "compliance", "audit"]

/-- app/main.py line 375. -/
def LATER_KEYWORDS : List String :=
  ["newsletter", "cme", "conference", "webinar", "marketing", "promotion",
   "sale", "discount", "survey"]

/-- `JonE5Classifier._check_keywords` (app/main.py lines 386-391): scans
the keyword list in order, returning the first keyword that is a
case-insensitive substring of `text`. -/
def check_keywords (text : String) (keywords : List String) : Bool × String :=
  let text_lower := lower text
  match keywords.find? (fun keyword => strContains text_lower (lower keyword)) with
  | some keyword => (true, keyword)
  | none => (false, "")

/-- `JonE5Classifier._check_domain` (app/main.py lines 393-398). -/
def check_domain (domain : String) (domains : List String) : Bool × String :=
  let domain_lower := lower domain
  match domains.find? (fun d => strContains domain_lower (lower d)) with
  | some d => (true, d)
  | none => (false, "")

end JonE5Classifier

/-- The `JonE5Response` pydantic model (app/main.py lines 241-250).
`personality_message` is a uniformly random pick from a fixed per-zone
pool with no effect on any branch, so it is left out of the embedding. -/
structure JonE5Response where
  zone : Zone
  confidence : ℚ
  reason : String
  summary : Option String := none
  recommended_action : Option String := none
  draft_reply : Option String := none
  action_type : Option String := none
  fallback : Bool := false
deriving DecidableEq, Repr

/-- The fields of the JSON object parsed from the LLM reply in
`JonE5Classifier._llm_classify` (app/main.py line 446): each field is
`none` when the key is absent; `draft_reply = some "null"` models the
literal string `"null"` which line 452 also treats as missing. -/
structure LLMClassifyJson where
  zone : Option String := none
  confidence : Option ℚ := none
  reason : Option String := none
  summary : Option String := none
  recommended_action : Option String := none
  action_type : Option String := none
  draft_reply : Option String := none
deriving Repr

/-- String names of the four zones, as used by the validity check of
app/main.py line 448. -/
def zoneOfString (s : String) : Zone :=
  if s = "STAT" then Zone.STAT
  else if s = "TODAY" then Zone.TODAY
  else if s = "THIS_WEEK" then Zone.THIS_WEEK
  else Zone.LATER

/-- `JonE5Classifier._llm_classify`, success path (app/main.py lines
446-465): the LLM call returned and its text parsed as JSON `result`.
Line 447-449: `zone` defaults to `"THIS_WEEK"` and any value outside the
four zone names is coerced to `"THIS_WEEK"`; line 450 clamps confidence
(default 0.75) to [0,1]; line 452 treats a `draft_reply` of null or
`"null"` as missing; line 453 sets
`fallback_flag = bool(action_type == "reply" and not draft_reply)`. -/
def llm_classify_success (result : LLMClassifyJson) : JonE5Response :=
  let zone_s := result.zone.getD "THIS_WEEK"
  let zone_s := if zone_s ∈ ["STAT", "TODAY", "THIS_WEEK", "LATER"]
    then zone_s else "THIS_WEEK"
  let zone := zoneOfString zone_s
  let confidence := min (max (result.confidence.getD (mkRat 75 100)) 0) 1
  let draft_reply := match result.draft_reply with
    | none => none
    | some d => if d = "null" then none else some d
  let fallback_flag := result.action_type = some "reply" && draft_reply = none
  { zone := zone
    confidence := confidence
    reason := result.reason.getD "AI analysis"
    summary := result.summary
    recommended_action := result.recommended_action
    action_type := result.action_type
    draft_reply := draft_reply
    fallback := fallback_flag }

open JonE5Classifier in
/-- Rule-based path of `JonE5Classifier.classify` (app/main.py lines
478-519), reached when no LLM backend is configured or the LLM call
failed. `get_rule_override` is the persisted sender→zone override table
(`db.get_rule_override`); stored zones are `ZoneType`-validated at write
time (app/main.py line 781), hence `Option Zone`. -/
def classifyRules (get_rule_override : String → Option Zone)
    (sender sender_domain subject : String) (snippet : Option String) :
    JonE5Response :=
  let combined_text := subject ++ " " ++ snippet.getD ""
  let sender_key := "sender:" ++ lower sender
  match get_rule_override sender_key with
  | some zone =>
    { zone := zone, confidence := mkRat 95 100
      reason := "Learned pattern from previous correction"
      summary := some ("Email from " ++ sender ++ " about: " ++ subject.take 50 ++ "...")
      recommended_action := some "Review and take appropriate action"
      action_type := some "review", fallback := true }
  | none =>
    let statK := check_keywords combined_text STAT_KEYWORDS
    if statK.1 then
      { zone := Zone.STAT, confidence := mkRat 92 100
        reason := "Urgent keyword: " ++ statK.2
        summary := some ("URGENT: Contains " ++ statK.2 ++ " - requires immediate attention")
        recommended_action := some "Review immediately and respond"
        action_type := some "review", fallback := true }
    else
    let statD := check_domain sender_domain STAT_DOMAINS
    if statD.1 then
      { zone := Zone.STAT, confidence := mkRat 88 100
        reason := "High-priority domain: " ++ statD.2
        summary := some ("From " ++ statD.2 ++ " - likely urgent medical matter")
        recommended_action := some "Review lab/medical results immediately"
        action_type := some "review", fallback := true }
    else
    let todayK := check_keywords combined_text TODAY_KEYWORDS
    if todayK.1 then
      { zone := Zone.TODAY, confidence := mkRat 85 100
        reason := "Same-day keyword: " ++ todayK.2
        summary := some ("Action needed today: " ++ todayK.2)
        recommended_action := some ("Process " ++ todayK.2 ++ " request today")
        action_type := some "reply", fallback := true }
    else
    let todayD := check_domain sender_domain TODAY_DOMAINS
    if todayD.1 then
      { zone := Zone.TODAY, confidence := mkRat 82 100
        reason := "Action-required sender: " ++ todayD.2
        summary := some ("From " ++ todayD.2 ++ " - likely needs same-day response")
        recommended_action := some "Respond to request today"
        action_type := some "reply", fallback := true }
    else
    let weekK := check_keywords combined_text THIS_WEEK_KEYWORDS
    if weekK.1 then
      { zone := Zone.THIS_WEEK, confidence := mkRat 80 100
        reason := "Administrative keyword: " ++ weekK.2
        summary := some ("Administrative matter: " ++ weekK.2)
        recommended_action := some ("Handle " ++ weekK.2 ++ " within the week")
        action_type := some "delegate", fallback := true }
    else
    let laterK := check_keywords combined_text LATER_KEYWORDS
    if laterK.1 then
      { zone := Zone.LATER, confidence := mkRat 90 100
        reason := "Low-priority keyword: " ++ laterK.2
        summary := some ("FYI only: " ++ laterK.2)
        recommended_action := some "Archive - no action needed"
        action_type := some "archive", fallback := true }
    else
      { zone := Zone.THIS_WEEK, confidence := mkRat 60 100
        reason := "No strong signals - defaulting to THIS_WEEK"
        summary := some ("Email from " ++ sender ++ ": " ++ subject.take 50 ++ "...")
        recommended_action := some "Review and categorize manually"
        action_type := some "review", fallback := true }

/-- `JonE5Classifier.classify` (app/main.py lines 470-519). `llm_result`
is the value of `self._llm_classify(...)` when a Cerebras client is
configured: `none` when the backend is unconfigured or `_llm_classify`
returned `None` (exception or unparseable JSON); any non-`None`
`JonE5Response` is returned as-is (line 475-476), else the rule path
runs. -/
def classify (llm_result : Option JonE5Response)
    (get_rule_override : String → Option Zone)
    (sender sender_domain subject : String) (snippet : Option String) :
    JonE5Response :=
  match llm_result with
  | some r => r
  | none => classifyRules get_rule_override sender sender_domain subject snippet

/-! ## Vectorizer (app/services/vectorizer.py) -/

/-- The `EmailInput` pydantic model (app/services/vectorizer.py lines
11-16). -/
structure EmailInput where
  subject : String
  body : String
  sender : String
  message_id : String
  grant_id : String
deriving DecidableEq, Repr

/-- The state-vector payload dict built by
`VectorizerService.vectorize_email` (app/services/vectorizer.py lines
71-80 and 84-93); both branches populate every key.
`current_owner_role` is absent from that dict (`none`) until
`RoutingEngine.route_vector` sets it. Timestamps are rationals measured
in hours, so `datetime.now() + timedelta(hours=h)` is `now + h`;
`context_blob` is a key/value list. -/
structure StateVectorPayload where
  nylas_message_id : String
  grant_id : String
  intent_label : String
  risk_score : ℚ
  context_blob : List (String × String)
  summary : String
  deadline_at : ℚ
  lifecycle_state : String
  current_owner_role : Option String := none
deriving DecidableEq, Repr

/-- The fields the success path of `vectorize_email` reads with `.get`
from the JSON object parsed out of the LLM reply (lines 66-77); each is
`none` whenever the key is absent. -/
structure LLMVectorJson where
  intent_label : Option String := none
  risk_score : Option ℚ := none
  context_blob : Option (List (String × String)) := none
  suggested_deadline_hours : Option ℚ := none
  summary : Option String := none
deriving Repr

/-- `VectorizerService.vectorize_email` (app/services/vectorizer.py lines
61-93). `llm : Except String LLMVectorJson` is the outcome of
`asyncio.to_thread(self._call_llm, prompt)` followed by
`json.loads(content)`: `Except.error e` models any raised exception
(transport error, non-JSON text, non-object JSON) with message `e`,
landing in the `except` branch of lines 82-93; `Except.ok` carries the
parsed object. `now` is the call time. -/
def vectorize_email (email : EmailInput) (now : ℚ)
    (llm : Except String LLMVectorJson) : StateVectorPayload :=
  match llm with
  | Except.ok vector_data =>
    let hours := vector_data.suggested_deadline_hours.getD 24
    { nylas_message_id := email.message_id
      grant_id := email.grant_id
      intent_label := vector_data.intent_label.getD "ADMIN"
      risk_score := vector_data.risk_score.getD 0
      context_blob := vector_data.context_blob.getD []
      summary := vector_data.summary.getD "No summary generated"
      deadline_at := now + hours
      lifecycle_state := "NEW" }
  | Except.error e =>
    { nylas_message_id := email.message_id
      grant_id := email.grant_id
      intent_label := "ADMIN"
      risk_score := 0
      context_blob := [("error", e)]
      summary := "AI Processing Failed"
      deadline_at := now + 24
      lifecycle_state := "NEW" }

/-! ## Routing Engine (app/services/router.py) -/

namespace RoutingEngine

/-- `RoutingEngine.ROLES` (app/services/router.py lines 5-12). -/
def ROLES : List (String × String) :=
  [("CLINICAL", "medical_assistant"),
   ("BILLING", "billing_specialist"),
   ("ADMIN", "front_desk"),
   ("SCHEDULING", "front_desk"),
   ("VENDOR", "office_manager"),
   ("SPAM", "system_archive")]

end RoutingEngine

/-- `RoutingEngine.route_vector` (app/services/router.py lines 14-27):
looks up `intent_label` in `ROLES` with default `"front_desk"`, then if
`risk_score > 0.8` overrides CLINICAL to `lead_doctor` and BILLING to
`practice_manager`, and stores the result in `current_owner_role` of the
returned payload. -/
def route_vector (vector_data : StateVectorPayload) : StateVectorPayload :=
  let intent := vector_data.intent_label
  let risk := vector_data.risk_score
  let owner_role := (RoutingEngine.ROLES.lookup intent).getD "front_desk"
  let owner_role :=
    if risk > mkRat 8 10 then
      if intent = "CLINICAL" then "lead_doctor"
      else if intent = "BILLING" then "practice_manager"
      else owner_role
    else owner_role
  { vector_data with current_owner_role := some owner_role }

/-! ## Lifecycle State Machine (app/services/state_machine.py) -/

namespace StateMachine

/-- `StateMachine.ALLOWED_TRANSITIONS` (app/services/state_machine.py
lines 9-15). -/
def ALLOWED_TRANSITIONS : List (String × List String) :=
  [("NEW", ["ASSIGNED", "RESOLVED", "ARCHIVED"]),
   ("ASSIGNED", ["RESOLVED", "ESCALATED", "ARCHIVED"]),
   ("ESCALATED", ["RESOLVED", "ARCHIVED"]),
   ("RESOLVED", ["ARCHIVED", "NEW"]),
   ("ARCHIVED", ["NEW"])]

/-- `self.ALLOWED_TRANSITIONS.get(current_state, [])` (line 26). -/
def allowedNext (current_state : String) : List String :=
  (ALLOWED_TRANSITIONS.lookup current_state).getD []

end StateMachine

/-- The columns of `MessageStateVector`
(app/models/state_vector.py lines 8-29) that
`StateMachine.transition` reads or writes, plus the unique
`nylas_message_id`. -/
structure MessageStateVector where
  id : String
  nylas_message_id : String
  lifecycle_state : String
  updated_at : ℚ
deriving DecidableEq, Repr

/-- A `MessageEvent` row (app/models/state_vector.py lines 32-39). -/
structure MessageEvent where
  vector_id : String
  event_type : String
  description : String
deriving DecidableEq, Repr

/-- The slice of the database `StateMachine.transition` touches: the
`message_state_vectors` rows and the append-only `message_events` rows. -/
structure StateDb where
  vectors : List MessageStateVector
  events : List MessageEvent
deriving DecidableEq, Repr

/-- The two `ValueError`s `transition` raises, distinguished by their
messages: `"Vector not found"` (line 22) and
`"Invalid transition: {current} -> {new}"` (line 27). -/
inductive TransitionError where
  | vectorNotFound
  | invalidTransition (current_state new_state : String)
deriving DecidableEq, Repr

/-- `StateMachine.transition` (app/services/state_machine.py lines
17-41). `now` is `datetime.now()`; `user_id` defaults to `"system"`.
The SELECT by id is `find?` on the vector rows; the two raises happen
before any mutation, and the state write, `updated_at` write and event
append are all committed by the single `db.commit()` of line 38, so the
success case returns one new `StateDb` holding all three effects, and
the error cases return no new database at all. -/
def transition (db : StateDb) (now : ℚ) (vector_id new_state : String)
    (user_id : String := "system") :
    Except TransitionError (StateDb × MessageStateVector) :=
  match db.vectors.find? (fun v => v.id = vector_id) with
  | none => Except.error TransitionError.vectorNotFound
  | some vector =>
    let current_state := vector.lifecycle_state
    if new_state ∉ StateMachine.allowedNext current_state then
      Except.error (TransitionError.invalidTransition current_state new_state)
    else
      let updated := { vector with lifecycle_state := new_state, updated_at := now }
      let event : MessageEvent :=
        { vector_id := vector.id
          event_type := "STATE_CHANGE"
          description := "Changed from " ++ current_state ++ " to " ++ new_state
            ++ " by " ++ user_id }
      Except.ok
        ({ vectors := db.vectors.map (fun v => if v.id = vector_id then updated else v)
           events := db.events ++ [event] },
         updated)

/-! ## Persistence of vectors: the `nylas_message_id` uniqueness constraint

`MessageStateVector.nylas_message_id` is declared `unique=True`
(app/models/state_vector.py line 12), so a second INSERT with the same
value fails with `IntegrityError` and the session rollback leaves the
table unchanged. -/

/-- Outcome of the commit block of `process_shadow_traffic` (app/main.py
lines 141-153): success, or the `IntegrityError` caught on line 148 and
logged as a benign duplicate (rollback, no re-raise). -/
inductive ShadowSaveOutcome where
  | success
  | duplicateIgnored
deriving DecidableEq, Repr

/-- The persistence step of `process_shadow_traffic` (app/main.py lines
141-153): add the routed payload and commit; on `nylas_message_id`
collision the `IntegrityError` is caught, the session rolled back, a
warning printed, and nothing is re-raised. -/
def shadow_save (vectors : List StateVectorPayload) (routed_data : StateVectorPayload) :
    List StateVectorPayload × ShadowSaveOutcome :=
  if vectors.any (fun v => v.nylas_message_id = routed_data.nylas_message_id) then
    (vectors, ShadowSaveOutcome.duplicateIgnored)
  else
    (vectors ++ [routed_data], ShadowSaveOutcome.success)

/-- Outcome of the `POST /vectorizer/vectorize` handler
(app/routers/vectorizer.py lines 63-86): success, or the generic
`except Exception` of lines 84-86 which rolls back and raises
`HTTPException(status_code=500, detail="Failed to vectorize message: ...")`
to the caller. -/
inductive VectorizeEndpointOutcome where
  | success
  | httpError500
deriving DecidableEq, Repr

/-- The persistence step of `vectorize_message`
(app/routers/vectorizer.py lines 72-86): add and commit inside a `try`
whose only handler is `except Exception`, so an `IntegrityError` on a
duplicate `nylas_message_id` becomes an HTTP 500 response raised to the
caller. -/
def vectorize_message_save (vectors : List StateVectorPayload)
    (vector_data : StateVectorPayload) :
    List StateVectorPayload × VectorizeEndpointOutcome :=
  if vectors.any (fun v => v.nylas_message_id = vector_data.nylas_message_id) then
    (vectors, VectorizeEndpointOutcome.httpError500)
  else
    (vectors ++ [vector_data], VectorizeEndpointOutcome.success)

end DocboxRx

namespace DocboxRx

/-- `ALLOWED_TRANSITIONS.get(current_state, [])` as an if-chain over the
five lifecycle states. -/
theorem allowedNext_eq (cs : String) :
    StateMachine.allowedNext cs =
    if cs = "NEW" then ["ASSIGNED", "RESOLVED", "ARCHIVED"]
    else if cs = "ASSIGNED" then ["RESOLVED", "ESCALATED", "ARCHIVED"]
    else if cs = "ESCALATED" then ["RESOLVED", "ARCHIVED"]
    else if cs = "RESOLVED" then ["ARCHIVED", "NEW"]
    else if cs = "ARCHIVED" then ["NEW"]
    else [] := by
  simp only [StateMachine.allowedNext, StateMachine.ALLOWED_TRANSITIONS, List.lookup]
  by_cases h1 : cs = "NEW" <;> by_cases h2 : cs = "ASSIGNED" <;>
    by_cases h3 : cs = "ESCALATED" <;> by_cases h4 : cs = "RESOLVED" <;>
    by_cases h5 : cs = "ARCHIVED" <;> simp_all [beq_eq_decide]

/-- No lifecycle state lists itself among its allowed successors. -/
theorem not_self_mem_allowedNext (s : String) : s ∉ StateMachine.allowedNext s := by
  rw [allowedNext_eq]
  split_ifs with h1 h2 h3 h4 h5
  · subst h1; decide
  · subst h2; decide
  · subst h3; decide
  · subst h4; decide
  · subst h5; decide
  · simp

/-- C2: `transition(vector_id, new_state, actor)` fails with the
not-found error (`ValueError("Vector not found")`) when no vector has
`vector_id`, and with the distinct invalid-transition error
(`ValueError("Invalid transition: ...")`) when `new_state` is not in the
allowed-edge set of the vector's current `lifecycle_state`; in both
failure cases the result is an error value carrying no updated database,
so the vector is unmodified and no `StateEvent` is recorded (the Python
raises before any mutation, and nothing is committed). The two error
conditions are distinct. -/
theorem C2_transition_failure_modes (db : StateDb) (now : ℚ)
    (vector_id new_state user_id : String) :
    (db.vectors.find? (fun v => v.id = vector_id) = none →
      transition db now vector_id new_state user_id =
        Except.error TransitionError.vectorNotFound) ∧
    (∀ vector, db.vectors.find? (fun v => v.id = vector_id) = some vector →
      new_state ∉ StateMachine.allowedNext vector.lifecycle_state →
      transition db now vector_id new_state user_id =
        Except.error (TransitionError.invalidTransition vector.lifecycle_state new_state)) ∧
    (∀ cs ns, TransitionError.vectorNotFound ≠ TransitionError.invalidTransition cs ns) := by
  refine ⟨?_, ?_, ?_⟩
  · intro h; simp [transition, h]
  · intro vector hfind hns; simp [transition, hfind, hns]
  · intro cs ns h; exact TransitionError.noConfusion h

/-- C2 witness: both failure modes at concrete inputs. -/
theorem C2_transition_failure_modes_witness :
    transition ⟨[], []⟩ 0 "v1" "ASSIGNED" "system" =
      Except.error TransitionError.vectorNotFound ∧
    transition ⟨[⟨"v1", "m1", "NEW", 0⟩], []⟩ 0 "v1" "ESCALATED" "ops" =
      Except.error (TransitionError.invalidTransition "NEW" "ESCALATED") :=
  ⟨(C2_transition_failure_modes ⟨[], []⟩ 0 "v1" "ASSIGNED" "system").1 (by decide),
   (C2_transition_failure_modes ⟨[⟨"v1", "m1", "NEW", 0⟩], []⟩ 0 "v1" "ESCALATED" "ops").2.1
     ⟨"v1", "m1", "NEW", 0⟩ (by decide) (by decide)⟩

/-- C3: the allowed-edge set is exactly the eleven edges
NEW→ASSIGNED/RESOLVED/ARCHIVED, ASSIGNED→RESOLVED/ESCALATED/ARCHIVED,
ESCALATED→RESOLVED/ARCHIVED, RESOLVED→ARCHIVED/NEW, ARCHIVED→NEW; for a
vector whose current state allows `new_state`, `transition` succeeds and
returns in one atomic result the database in which that vector's
`lifecycle_state` is `new_state`, its `updated_at` is refreshed to `now`,
and exactly one `StateEvent` with `event_type="STATE_CHANGE"` and a
description naming the old state, the new state and the actor is appended
(the single `db.commit()` applies all three effects as one unit); the
actor defaults to `"system"` when not supplied. -/
theorem C3_transition_success :
    (∀ cs ns, ns ∈ StateMachine.allowedNext cs ↔
      (cs, ns) ∈ ([("NEW", "ASSIGNED"), ("NEW", "RESOLVED"), ("NEW", "ARCHIVED"),
        ("ASSIGNED", "RESOLVED"), ("ASSIGNED", "ESCALATED"), ("ASSIGNED", "ARCHIVED"),
        ("ESCALATED", "RESOLVED"), ("ESCALATED", "ARCHIVED"),
        ("RESOLVED", "ARCHIVED"), ("RESOLVED", "NEW"),
        ("ARCHIVED", "NEW")] : List (String × String))) ∧
    (∀ (db : StateDb) (now : ℚ) (vector_id new_state user_id : String)
        (vector : MessageStateVector),
      db.vectors.find? (fun v => v.id = vector_id) = some vector →
      new_state ∈ StateMachine.allowedNext vector.lifecycle_state →
      transition db now vector_id new_state user_id =
        Except.ok
          ({ vectors := db.vectors.map (fun v => if v.id = vector_id then
               { vector with lifecycle_state := new_state, updated_at := now } else v),
             events := db.events ++
               [{ vector_id := vector.id, event_type := "STATE_CHANGE",
                  description := "Changed from " ++ vector.lifecycle_state ++ " to "
                    ++ new_state ++ " by " ++ user_id }] },
           { vector with lifecycle_state := new_state, updated_at := now })) ∧
    (∀ (db : StateDb) (now : ℚ) (vector_id new_state : String),
      transition db now vector_id new_state =
        transition db now vector_id new_state "system") := by
  refine ⟨?_, ?_, ?_⟩
  · intro cs ns
    rw [allowedNext_eq]
    split_ifs with h1 h2 h3 h4 h5
    · subst h1; simp
    · subst h2; simp
    · subst h3; simp
    · subst h4; simp
    · subst h5; simp
    · simp_all [Prod.ext_iff]
  · intro db now vector_id new_state user_id vector hfind hmem
    simp [transition, hfind, hmem]
  · intro db now vector_id new_state; rfl

/-- C3 witness: a concrete NEW→ASSIGNED transition with actor "alice". -/
theorem C3_transition_success_witness :
    transition ⟨[⟨"v1", "m1", "NEW", 0⟩], []⟩ 5 "v1" "ASSIGNED" "alice" =
      Except.ok
        (⟨[⟨"v1", "m1", "ASSIGNED", 5⟩],
          [⟨"v1", "STATE_CHANGE", "Changed from NEW to ASSIGNED by alice"⟩]⟩,
         ⟨"v1", "m1", "ASSIGNED", 5⟩) := by
  have h := C3_transition_success.2.1 ⟨[⟨"v1", "m1", "NEW", 0⟩], []⟩ 5 "v1" "ASSIGNED"
    "alice" ⟨"v1", "m1", "NEW", 0⟩ (by decide) (by decide)
  simpa using h

/-- C10: no lifecycle state lists itself among its allowed successors
(for the five named states and vacuously for every other string), so a
transition request whose `new_state` equals the vector's current
`lifecycle_state` always fails with the invalid-transition error, and
every successful transition strictly changes the state. -/
theorem C10_no_self_loop :
    (∀ s : String, s ∉ StateMachine.allowedNext s) ∧
    (∀ (db : StateDb) (now : ℚ) (vector_id user_id : String)
        (vector : MessageStateVector),
      db.vectors.find? (fun v => v.id = vector_id) = some vector →
      transition db now vector_id vector.lifecycle_state user_id =
        Except.error (TransitionError.invalidTransition vector.lifecycle_state
          vector.lifecycle_state)) ∧
    (∀ (db db' : StateDb) (now : ℚ) (vector_id new_state user_id : String)
        (vector updated : MessageStateVector),
      db.vectors.find? (fun v => v.id = vector_id) = some vector →
      transition db now vector_id new_state user_id = Except.ok (db', updated) →
      updated.lifecycle_state ≠ vector.lifecycle_state) := by
  refine ⟨not_self_mem_allowedNext, ?_, ?_⟩
  · intro db now vector_id user_id vector hfind
    simp [transition, hfind, not_self_mem_allowedNext vector.lifecycle_state]
  · intro db db' now vector_id new_state user_id vector updated hfind htr
    simp only [transition, hfind] at htr
    by_cases hmem : new_state ∈ StateMachine.allowedNext vector.lifecycle_state
    · rw [if_neg (not_not_intro hmem)] at htr
      simp only [Except.ok.injEq, Prod.mk.injEq] at htr
      obtain ⟨-, h2⟩ := htr
      intro heq
      have hne : new_state = vector.lifecycle_state := by
        rw [← h2] at heq; simpa using heq
      exact not_self_mem_allowedNext vector.lifecycle_state (hne ▸ hmem)
    · rw [if_pos hmem] at htr
      exact Except.noConfusion htr

/-- C10 witness: a NEW→NEW request fails as an invalid transition, and a
concrete successful NEW→ASSIGNED transition strictly changes the state. -/
theorem C10_no_self_loop_witness :
    transition ⟨[⟨"v1", "m1", "NEW", 0⟩], []⟩ 0 "v1" "NEW" "system" =
      Except.error (TransitionError.invalidTransition "NEW" "NEW") ∧
    ("ASSIGNED" : String) ≠ "NEW" :=
  ⟨C10_no_self_loop.2.1 ⟨[⟨"v1", "m1", "NEW", 0⟩], []⟩ 0 "v1" "system"
     ⟨"v1", "m1", "NEW", 0⟩ (by decide),
   C10_no_self_loop.2.2 ⟨[⟨"v1", "m1", "NEW", 0⟩], []⟩
     ⟨[⟨"v1", "m1", "ASSIGNED", 5⟩],
       [⟨"v1", "STATE_CHANGE", "Changed from NEW to ASSIGNED by system"⟩]⟩
     5 "v1" "ASSIGNED" "system" ⟨"v1", "m1", "NEW", 0⟩ ⟨"v1", "m1", "ASSIGNED", 5⟩
     (by decide) (by decide)⟩


/-- `ROLES.get(intent, "front_desk")` as an if-chain over the six intent
labels. -/
theorem rolesGet_eq (intent : String) :
    (RoutingEngine.ROLES.lookup intent).getD "front_desk" =
    if intent = "CLINICAL" then "medical_assistant"
    else if intent = "BILLING" then "billing_specialist"
    else if intent = "ADMIN" then "front_desk"
    else if intent = "SCHEDULING" then "front_desk"
    else if intent = "VENDOR" then "office_manager"
    else if intent = "SPAM" then "system_archive"
    else "front_desk" := by
  simp only [RoutingEngine.ROLES, List.lookup]
  by_cases h1 : intent = "CLINICAL" <;> by_cases h2 : intent = "BILLING" <;>
    by_cases h3 : intent = "ADMIN" <;> by_cases h4 : intent = "SCHEDULING" <;>
    by_cases h5 : intent = "VENDOR" <;> by_cases h6 : intent = "SPAM" <;>
    simp_all [beq_eq_decide]

/-- The owner-role mapping exactly as the claim words it: base mapping
CLINICAL→medical_assistant, BILLING→billing_specialist, ADMIN→front_desk,
SCHEDULING→front_desk, VENDOR→office_manager, SPAM→system_archive,
anything else→front_desk, overridden to lead_doctor (CLINICAL) or
practice_manager (BILLING) exactly when `risk_score > 0.8`. Stated from
the spec's words, to be compared with `route_vector`. -/
def claimedRouteRole (intent : String) (risk : ℚ) : String :=
  if risk > mkRat 8 10 ∧ intent = "CLINICAL" then "lead_doctor"
  else if risk > mkRat 8 10 ∧ intent = "BILLING" then "practice_manager"
  else if intent = "CLINICAL" then "medical_assistant"
  else if intent = "BILLING" then "billing_specialist"
  else if intent = "ADMIN" then "front_desk"
  else if intent = "SCHEDULING" then "front_desk"
  else if intent = "VENDOR" then "office_manager"
  else if intent = "SPAM" then "system_archive"
  else "front_desk"

/-- C5: `route_vector` is the deterministic mapping from
`(intent_label, risk_score)` described by the claim: it returns its
input payload with `current_owner_role` set to the base mapping, escalated
to lead_doctor/practice_manager for CLINICAL/BILLING exactly when
`risk_score > 0.8`, with every other intent (including SPAM at any risk)
and unknown intents keeping their base mapping. -/
theorem C5_route_vector_mapping (p : StateVectorPayload) :
    route_vector p =
      { p with
          current_owner_role := some (claimedRouteRole p.intent_label p.risk_score) } := by
  simp only [route_vector, claimedRouteRole]
  rw [rolesGet_eq]
  by_cases hr : p.risk_score > mkRat 8 10 <;>
    by_cases h1 : p.intent_label = "CLINICAL" <;>
    by_cases h2 : p.intent_label = "BILLING" <;>
    simp_all

/-- C6: on any LLM/parse failure `vectorize_email` returns exactly the
degraded payload — `intent_label="ADMIN"`, `risk_score=0.0`,
`context_blob={"error": <message>}`, `summary="AI Processing Failed"`,
`deadline_at = now + 24` hours, `lifecycle_state="NEW"` — and never
raises; in every case (success or failure) the returned payload is a
complete `StateVectorPayload` (all required keys, by construction of the
return type) with `lifecycle_state="NEW"`. -/
theorem C6_vectorize_email_failure (email : EmailInput) (now : ℚ) (e : String) :
    vectorize_email email now (Except.error e) =
      { nylas_message_id := email.message_id
        grant_id := email.grant_id
        intent_label := "ADMIN"
        risk_score := 0
        context_blob := [("error", e)]
        summary := "AI Processing Failed"
        deadline_at := now + 24
        lifecycle_state := "NEW" } ∧
    (∀ llm : Except String LLMVectorJson,
      (vectorize_email email now llm).lifecycle_state = "NEW") := by
  refine ⟨rfl, ?_⟩
  intro llm
  cases llm <;> rfl

/-- The six intent labels the Vectorizer prompt allows
(app/services/vectorizer.py line 41). -/
def INTENT_LABELS : List String :=
  ["CLINICAL", "BILLING", "ADMIN", "SCHEDULING", "VENDOR", "SPAM"]

/-- C9 counterexample: the success path of `vectorize_email` copies
`intent_label` and `risk_score` out of the LLM JSON unvalidated, so the
LLM response text `{"intent_label": "LAWSUIT", "risk_score": 5.0}` yields
a payload whose `intent_label` is outside the six-value enum and whose
`risk_score` lies outside [0.0, 1.0]. -/
theorem C9_unvalidated_cex :
    (vectorize_email ⟨"s", "b", "a@b.c", "m1", "g1"⟩ 0
        (Except.ok { intent_label := some "LAWSUIT",
                     risk_score := some (mkRat 5 1) })).intent_label = "LAWSUIT" ∧
    "LAWSUIT" ∉ INTENT_LABELS ∧
    (vectorize_email ⟨"s", "b", "a@b.c", "m1", "g1"⟩ 0
        (Except.ok { intent_label := some "LAWSUIT",
                     risk_score := some (mkRat 5 1) })).risk_score = mkRat 5 1 ∧
    ¬(mkRat 5 1 ≤ 1) := by
  refine ⟨rfl, by decide, rfl, by decide⟩

/-- C9 amended: the degraded (failure-path) payload always satisfies the
enum and range constraints (`intent_label="ADMIN"`, `risk_score=0`), and
the success-path payload satisfies them whenever the values the LLM
supplied (or their defaults `"ADMIN"`/`0.0` when missing) do —
`vectorize_email` passes them through without validation. -/
theorem C9_intent_risk_amended (email : EmailInput) (now : ℚ)
    (llm : Except String LLMVectorJson) :
    (∀ e, llm = Except.error e →
      (vectorize_email email now llm).intent_label ∈ INTENT_LABELS ∧
      0 ≤ (vectorize_email email now llm).risk_score ∧
      (vectorize_email email now llm).risk_score ≤ 1) ∧
    (∀ vd, llm = Except.ok vd →
      (vd.intent_label.getD "ADMIN" ∈ INTENT_LABELS →
        (vectorize_email email now llm).intent_label ∈ INTENT_LABELS) ∧
      (0 ≤ vd.risk_score.getD 0 ∧ vd.risk_score.getD 0 ≤ 1 →
        0 ≤ (vectorize_email email now llm).risk_score ∧
        (vectorize_email email now llm).risk_score ≤ 1)) := by
  constructor
  · rintro e rfl
    refine ⟨?_, ?_, ?_⟩
    · simp [vectorize_email, INTENT_LABELS]
    · simp [vectorize_email]
    · simp [vectorize_email]
  · rintro vd rfl
    constructor
    · intro h
      simpa [vectorize_email] using h
    · intro h
      simpa [vectorize_email] using h

/-- C9 amended witness: the failure path at a concrete input. -/
theorem C9_intent_risk_amended_witness :
    (vectorize_email ⟨"s", "b", "a@b.c", "m1", "g1"⟩ 0
        (Except.error "boom")).intent_label ∈ INTENT_LABELS ∧
    0 ≤ (vectorize_email ⟨"s", "b", "a@b.c", "m1", "g1"⟩ 0
        (Except.error "boom")).risk_score ∧
    (vectorize_email ⟨"s", "b", "a@b.c", "m1", "g1"⟩ 0
        (Except.error "boom")).risk_score ≤ 1 :=
  (C9_intent_risk_amended ⟨"s", "b", "a@b.c", "m1", "g1"⟩ 0
    (Except.error "boom")).1 "boom" rfl

/-- C7 counterexample: with one vector for `nylas_message_id="m1"` already
persisted by the shadow worker, a second insert attempt for the same
message through the `POST /vectorizer/vectorize` endpoint — a caller of
the vectorization pipeline named by the claim — hits the uniqueness
constraint and is surfaced to that caller as an HTTP 500 error, refuting
"never surfaced as an error to any caller". -/
theorem C7_duplicate_surfaced_cex :
    shadow_save [] ⟨"m1", "g1", "ADMIN", 0, [], "s", 0, "NEW", none⟩ =
      ([⟨"m1", "g1", "ADMIN", 0, [], "s", 0, "NEW", none⟩],
        ShadowSaveOutcome.success) ∧
    vectorize_message_save [⟨"m1", "g1", "ADMIN", 0, [], "s", 0, "NEW", none⟩]
        ⟨"m1", "g2", "BILLING", 0, [], "t", 0, "NEW", none⟩ =
      ([⟨"m1", "g1", "ADMIN", 0, [], "s", 0, "NEW", none⟩],
        VectorizeEndpointOutcome.httpError500) := by
  exact ⟨by decide, by decide⟩

/-- C7 amended: when two inserts are attempted with the same
`nylas_message_id` (over a store not yet holding that id), exactly one
row ends up persisted in every path; the shadow worker
(`process_shadow_traffic`) catches the second insert's
uniqueness-constraint failure and treats it as a benign no-op, but the
`POST /vectorizer/vectorize` endpoint catches it generically and surfaces
it to its caller as an HTTP 500 error. -/
theorem C7_at_most_once_amended (vectors : List StateVectorPayload)
    (p q : StateVectorPayload)
    (hid : q.nylas_message_id = p.nylas_message_id)
    (hfresh : ∀ v ∈ vectors, v.nylas_message_id ≠ p.nylas_message_id) :
    (shadow_save vectors p).2 = ShadowSaveOutcome.success ∧
    (shadow_save vectors p).1.countP
        (fun v => v.nylas_message_id == p.nylas_message_id) = 1 ∧
    shadow_save (shadow_save vectors p).1 q =
      ((shadow_save vectors p).1, ShadowSaveOutcome.duplicateIgnored) ∧
    vectorize_message_save (shadow_save vectors p).1 q =
      ((shadow_save vectors p).1, VectorizeEndpointOutcome.httpError500) := by
  have hany : (vectors.any (fun v => v.nylas_message_id = p.nylas_message_id)) = false := by
    rw [List.any_eq_false]
    intro v hv
    simp only [decide_eq_true_eq]
    exact hfresh v hv
  have h1 : shadow_save vectors p = (vectors ++ [p], ShadowSaveOutcome.success) := by
    simp [shadow_save, hany]
  have hany2 : ((vectors ++ [p]).any
      (fun v => v.nylas_message_id = q.nylas_message_id)) = true := by
    rw [List.any_eq_true]
    exact ⟨p, by simp, by simp [hid]⟩
  refine ⟨by rw [h1], ?_, ?_, ?_⟩
  · rw [h1]
    simp only [List.countP_append]
    have hz : vectors.countP (fun v => v.nylas_message_id == p.nylas_message_id) = 0 := by
      rw [List.countP_eq_zero]
      intro v hv
      simpa using hfresh v hv
    simp [hz, List.countP_cons]
  · rw [h1]
    simp only [shadow_save]
    rw [if_pos]
    simpa using hany2
  · rw [h1]
    simp only [vectorize_message_save]
    rw [if_pos]
    simpa using hany2

/-- C7 amended witness: the duplicate pair at concrete payloads over the
empty store. -/
theorem C7_at_most_once_amended_witness :
    (shadow_save [] ⟨"m1", "g1", "ADMIN", 0, [], "s", 0, "NEW", none⟩).2 =
      ShadowSaveOutcome.success ∧
    (shadow_save [] ⟨"m1", "g1", "ADMIN", 0, [], "s", 0, "NEW", none⟩).1.countP
        (fun v => v.nylas_message_id == "m1") = 1 ∧
    shadow_save (shadow_save [] ⟨"m1", "g1", "ADMIN", 0, [], "s", 0, "NEW", none⟩).1
        ⟨"m1", "g2", "BILLING", 0, [], "t", 0, "NEW", none⟩ =
      ((shadow_save [] ⟨"m1", "g1", "ADMIN", 0, [], "s", 0, "NEW", none⟩).1,
        ShadowSaveOutcome.duplicateIgnored) ∧
    vectorize_message_save
        (shadow_save [] ⟨"m1", "g1", "ADMIN", 0, [], "s", 0, "NEW", none⟩).1
        ⟨"m1", "g2", "BILLING", 0, [], "t", 0, "NEW", none⟩ =
      ((shadow_save [] ⟨"m1", "g1", "ADMIN", 0, [], "s", 0, "NEW", none⟩).1,
        VectorizeEndpointOutcome.httpError500) :=
  C7_at_most_once_amended [] ⟨"m1", "g1", "ADMIN", 0, [], "s", 0, "NEW", none⟩
    ⟨"m1", "g2", "BILLING", 0, [], "t", 0, "NEW", none⟩ (by decide)
    (by intro v hv; simp at hv)

open JonE5Classifier

/-- C1: the claim (and the `fallback` field's own comment, app/main.py
line 250: "True when jonE5 had to use rules-based fallback") says a
successful LLM classification is returned with `fallback=false`; but
`_llm_classify` line 453 sets
`fallback_flag = bool(action_type == "reply" and not draft_reply)`, so
the successful, parseable, valid-zone LLM response
`{"zone": "TODAY", "confidence": 0.9, "action_type": "reply",
"draft_reply": null}` is returned by `classify` as the LLM result — yet
with `fallback=true`, even though its zone/confidence came from the LLM
and not from the rule engine. -/
theorem C1_llm_success_fallback_true :
    classify
        (some (llm_classify_success
          { zone := some "TODAY", confidence := some (mkRat 9 10),
            reason := some "needs same-day reply", action_type := some "reply" }))
        (fun _ => none) "pt@clinic.org" "clinic.org" "refill request" none =
      llm_classify_success
        { zone := some "TODAY", confidence := some (mkRat 9 10),
          reason := some "needs same-day reply", action_type := some "reply" } ∧
    (llm_classify_success
        { zone := some "TODAY", confidence := some (mkRat 9 10),
          reason := some "needs same-day reply", action_type := some "reply" }).zone
      = Zone.TODAY ∧
    (llm_classify_success
        { zone := some "TODAY", confidence := some (mkRat 9 10),
          reason := some "needs same-day reply", action_type := some "reply" }).fallback
      = true :=
  ⟨rfl, by decide, by decide⟩

/-- C4: with the LLM path unavailable, `classifyRules` evaluates its
rules in strict order, stopping at the first match: a stored sender
override always wins with confidence 0.95 regardless of keyword content;
otherwise STAT keyword (0.92), then STAT domain (0.88), then TODAY
keyword (0.85), then TODAY domain (0.82), then THIS_WEEK keyword (0.80),
then LATER keyword (0.90), each firing only when all earlier rules
missed; and concretely an email whose subject contains both the STAT
keyword "critical" and the LATER keyword "newsletter" yields STAT. -/
theorem C4_rule_precedence :
    (∀ (g : String → Option Zone) (sender sender_domain subject : String)
        (snippet : Option String) (z : Zone),
      g ("sender:" ++ lower sender) = some z →
      (classifyRules g sender sender_domain subject snippet).zone = z ∧
      (classifyRules g sender sender_domain subject snippet).confidence = mkRat 95 100 ∧
      (classifyRules g sender sender_domain subject snippet).fallback = true) ∧
    (∀ (g : String → Option Zone) (sender sender_domain subject : String)
        (snippet : Option String),
      g ("sender:" ++ lower sender) = none →
      ((check_keywords (subject ++ " " ++ snippet.getD "") STAT_KEYWORDS).1 = true →
        (classifyRules g sender sender_domain subject snippet).zone = Zone.STAT ∧
        (classifyRules g sender sender_domain subject snippet).confidence =
          mkRat 92 100) ∧
      ((check_keywords (subject ++ " " ++ snippet.getD "") STAT_KEYWORDS).1 = false →
        (check_domain sender_domain STAT_DOMAINS).1 = true →
        (classifyRules g sender sender_domain subject snippet).zone = Zone.STAT ∧
        (classifyRules g sender sender_domain subject snippet).confidence =
          mkRat 88 100) ∧
      ((check_keywords (subject ++ " " ++ snippet.getD "") STAT_KEYWORDS).1 = false →
        (check_domain sender_domain STAT_DOMAINS).1 = false →
        (check_keywords (subject ++ " " ++ snippet.getD "") TODAY_KEYWORDS).1 = true →
        (classifyRules g sender sender_domain subject snippet).zone = Zone.TODAY ∧
        (classifyRules g sender sender_domain subject snippet).confidence =
          mkRat 85 100) ∧
      ((check_keywords (subject ++ " " ++ snippet.getD "") STAT_KEYWORDS).1 = false →
        (check_domain sender_domain STAT_DOMAINS).1 = false →
        (check_keywords (subject ++ " " ++ snippet.getD "") TODAY_KEYWORDS).1 = false →
        (check_domain sender_domain TODAY_DOMAINS).1 = true →
        (classifyRules g sender sender_domain subject snippet).zone = Zone.TODAY ∧
        (classifyRules g sender sender_domain subject snippet).confidence =
          mkRat 82 100) ∧
      ((check_keywords (subject ++ " " ++ snippet.getD "") STAT_KEYWORDS).1 = false →
        (check_domain sender_domain STAT_DOMAINS).1 = false →
        (check_keywords (subject ++ " " ++ snippet.getD "") TODAY_KEYWORDS).1 = false →
        (check_domain sender_domain TODAY_DOMAINS).1 = false →
        (check_keywords (subject ++ " " ++ snippet.getD "") THIS_WEEK_KEYWORDS).1 = true →
        (classifyRules g sender sender_domain subject snippet).zone = Zone.THIS_WEEK ∧
        (classifyRules g sender sender_domain subject snippet).confidence =
          mkRat 80 100) ∧
      ((check_keywords (subject ++ " " ++ snippet.getD "") STAT_KEYWORDS).1 = false →
        (check_domain sender_domain STAT_DOMAINS).1 = false →
        (check_keywords (subject ++ " " ++ snippet.getD "") TODAY_KEYWORDS).1 = false →
        (check_domain sender_domain TODAY_DOMAINS).1 = false →
        (check_keywords (subject ++ " " ++ snippet.getD "") THIS_WEEK_KEYWORDS).1 = false →
        (check_keywords (subject ++ " " ++ snippet.getD "") LATER_KEYWORDS).1 = true →
        (classifyRules g sender sender_domain subject snippet).zone = Zone.LATER ∧
        (classifyRules g sender sender_domain subject snippet).confidence =
          mkRat 90 100)) ∧
    ((classifyRules (fun _ => none) "news@vendor.com" "vendor.com"
        "critical update newsletter" none).zone = Zone.STAT) := by
  refine ⟨?_, ?_, by decide⟩
  · intro g sender sender_domain subject snippet z hg
    simp [classifyRules, hg]
  · intro g sender sender_domain subject snippet hg
    refine ⟨?_, ?_, ?_, ?_, ?_, ?_⟩
    · intro k1
      simp [classifyRules, hg, k1]
    · intro k1 d1
      simp [classifyRules, hg, k1, d1]
    · intro k1 d1 k2
      simp [classifyRules, hg, k1, d1, k2]
    · intro k1 d1 k2 d2
      simp [classifyRules, hg, k1, d1, k2, d2]
    · intro k1 d1 k2 d2 k3
      simp [classifyRules, hg, k1, d1, k2, d2, k3]
    · intro k1 d1 k2 d2 k3 k4
      simp [classifyRules, hg, k1, d1, k2, d2, k3, k4]

/-- C4 witness: every rule of the precedence chain exercised at a
concrete input — a learned override beating STAT keywords, and one email
per keyword/domain rule. -/
theorem C4_rule_precedence_witness :
    ((classifyRules (fun k => if k = "sender:billing@x.com" then some Zone.LATER else none)
        "billing@x.com" "x.com" "URGENT STAT" none).zone = Zone.LATER ∧
      (classifyRules (fun k => if k = "sender:billing@x.com" then some Zone.LATER else none)
        "billing@x.com" "x.com" "URGENT STAT" none).confidence = mkRat 95 100 ∧
      (classifyRules (fun k => if k = "sender:billing@x.com" then some Zone.LATER else none)
        "billing@x.com" "x.com" "URGENT STAT" none).fallback = true) ∧
    ((classifyRules (fun _ => none) "a@b.qq" "b.qq" "critical" none).zone = Zone.STAT ∧
      (classifyRules (fun _ => none) "a@b.qq" "b.qq" "critical" none).confidence =
        mkRat 92 100) ∧
    ((classifyRules (fun _ => none) "a@b.qq" "labcorp.com" "zzz" none).zone = Zone.STAT ∧
      (classifyRules (fun _ => none) "a@b.qq" "labcorp.com" "zzz" none).confidence =
        mkRat 88 100) ∧
    ((classifyRules (fun _ => none) "a@b.qq" "b.qq" "refill" none).zone = Zone.TODAY ∧
      (classifyRules (fun _ => none) "a@b.qq" "b.qq" "refill" none).confidence =
        mkRat 85 100) ∧
    ((classifyRules (fun _ => none) "a@b.qq" "cvs.com" "zzz" none).zone = Zone.TODAY ∧
      (classifyRules (fun _ => none) "a@b.qq" "cvs.com" "zzz" none).confidence =
        mkRat 82 100) ∧
    ((classifyRules (fun _ => none) "a@b.qq" "b.qq" "invoice" none).zone = Zone.THIS_WEEK ∧
      (classifyRules (fun _ => none) "a@b.qq" "b.qq" "invoice" none).confidence =
        mkRat 80 100) ∧
    ((classifyRules (fun _ => none) "a@b.qq" "b.qq" "newsletter" none).zone = Zone.LATER ∧
      (classifyRules (fun _ => none) "a@b.qq" "b.qq" "newsletter" none).confidence =
        mkRat 90 100) :=
  ⟨C4_rule_precedence.1
      (fun k => if k = "sender:billing@x.com" then some Zone.LATER else none)
      "billing@x.com" "x.com" "URGENT STAT" none Zone.LATER (by decide),
   (C4_rule_precedence.2.1 (fun _ => none) "a@b.qq" "b.qq" "critical" none rfl).1
     (by decide),
   (C4_rule_precedence.2.1 (fun _ => none) "a@b.qq" "labcorp.com" "zzz" none rfl).2.1
     (by decide) (by decide),
   (C4_rule_precedence.2.1 (fun _ => none) "a@b.qq" "b.qq" "refill" none rfl).2.2.1
     (by decide) (by decide) (by decide),
   (C4_rule_precedence.2.1 (fun _ => none) "a@b.qq" "cvs.com" "zzz" none rfl).2.2.2.1
     (by decide) (by decide) (by decide) (by decide),
   (C4_rule_precedence.2.1 (fun _ => none) "a@b.qq" "b.qq" "invoice" none rfl).2.2.2.2.1
     (by decide) (by decide) (by decide) (by decide) (by decide),
   (C4_rule_precedence.2.1 (fun _ => none) "a@b.qq" "b.qq" "newsletter" none rfl).2.2.2.2.2
     (by decide) (by decide) (by decide) (by decide) (by decide) (by decide)⟩

/-- C8: with no override, no keyword match and no domain match, the
LLM-unavailable path of `classify` returns the default bucket
`zone=THIS_WEEK`, `confidence=0.60`, `fallback=true` — no email is left
without a zone. -/
theorem C8_default_bucket (g : String → Option Zone)
    (sender sender_domain subject : String) (snippet : Option String)
    (hover : g ("sender:" ++ lower sender) = none)
    (h1 : (check_keywords (subject ++ " " ++ snippet.getD "") STAT_KEYWORDS).1 = false)
    (h2 : (check_domain sender_domain STAT_DOMAINS).1 = false)
    (h3 : (check_keywords (subject ++ " " ++ snippet.getD "") TODAY_KEYWORDS).1 = false)
    (h4 : (check_domain sender_domain TODAY_DOMAINS).1 = false)
    (h5 : (check_keywords (subject ++ " " ++ snippet.getD "") THIS_WEEK_KEYWORDS).1 = false)
    (h6 : (check_keywords (subject ++ " " ++ snippet.getD "") LATER_KEYWORDS).1 = false) :
    classify none g sender sender_domain subject snippet =
      classifyRules g sender sender_domain subject snippet ∧
    (classifyRules g sender sender_domain subject snippet).zone = Zone.THIS_WEEK ∧
    (classifyRules g sender sender_domain subject snippet).confidence = mkRat 60 100 ∧
    (classifyRules g sender sender_domain subject snippet).fallback = true := by
  refine ⟨rfl, ?_⟩
  simp [classifyRules, hover, h1, h2, h3, h4, h5, h6]

/-- C8 witness: a concrete email matching nothing. -/
theorem C8_default_bucket_witness :
    classify none (fun _ => none) "a@b.qq" "b.qq" "zzz" none =
      classifyRules (fun _ => none) "a@b.qq" "b.qq" "zzz" none ∧
    (classifyRules (fun _ => none) "a@b.qq" "b.qq" "zzz" none).zone = Zone.THIS_WEEK ∧
    (classifyRules (fun _ => none) "a@b.qq" "b.qq" "zzz" none).confidence = mkRat 60 100 ∧
    (classifyRules (fun _ => none) "a@b.qq" "b.qq" "zzz" none).fallback = true :=
  C8_default_bucket (fun _ => none) "a@b.qq" "b.qq" "zzz" none rfl
    (by decide) (by decide) (by decide) (by decide) (by decide) (by decide)

end DocboxRx
